import Mathlib

/-!
Verification development for the Swedish patent-law RAG chatbot repository.

The embedding works over `List Char`.  Pure text-rewriting code
(`etl/preprocess_text.py`), the query pipeline (`app/vector_store.py`) and
the chat wrapper (`app/chatbot.py`) are translated function by function;
the external collaborators (vector index search, Gemini generation calls,
wall-clock time) are passed in as explicit parameters, failing calls as
`Except` values, exactly where the Python code performs the network call.
-/

set_option linter.unusedVariables false

/-- Characters Python `\s` matches on the ASCII range used by the repository
    texts. -/
def isWsC (c : Char) : Bool :=
  c = ' ' || c = '\t' || c = '\n' || c = '\r' || c = '\x0b' || c = '\x0c'

def isDigitC (c : Char) : Bool := c.isDigit

/-- Word characters for Python `\b` on the texts of this repository:
    ASCII alphanumerics, underscore and the Swedish letters. -/
def isWordC (c : Char) : Bool :=
  c.isAlphanum || c = '_' || c = 'å' || c = 'ä' || c = 'ö' || c = 'Å' || c = 'Ä' || c = 'Ö'

/-- Lower-casing as Python `re.IGNORECASE` needs it here: ASCII plus the
    Swedish letters appearing in the repository patterns. -/
def lowC (c : Char) : Char :=
  if c = 'Å' then 'å' else if c = 'Ä' then 'ä' else if c = 'Ö' then 'ö' else c.toLower

/-- Case-sensitive literal match at the head of a text. -/
def startsWith : List Char → List Char → Bool
  | [], _ => true
  | _ :: _, [] => false
  | p :: ps, c :: cs => p = c && startsWith ps cs

/-- Case-insensitive literal match at the head of a text. -/
def startsWithCI : List Char → List Char → Bool
  | [], _ => true
  | _ :: _, [] => false
  | p :: ps, c :: cs => lowC p = lowC c && startsWithCI ps cs

/-- Substring membership, as the Python in-operator on strings. -/
def containsSub (pat : List Char) : List Char → Bool
  | [] => startsWith pat []
  | c :: cs => startsWith pat (c :: cs) || containsSub pat cs

/-- Number of positions of `s` at which the literal `pat` occurs. -/
def countOcc (pat : List Char) : List Char → Nat
  | [] => if startsWith pat [] then 1 else 0
  | c :: cs => (if startsWith pat (c :: cs) then 1 else 0) + countOcc pat cs

/-- Match of `(\d+)\s*kap\.` at the head of `s`: the digit group and the
    matched length.  This is the chapter-marker pattern of
    `preprocess_text.py` (line 61, line 132) and `vector_store.py`. -/
def chapAt (s : List Char) : Option (List Char × Nat) :=
  let d := s.takeWhile isDigitC
  if d.isEmpty then none else
    let s1 := s.drop d.length
    let w := s1.takeWhile isWsC
    if startsWith "kap.".data (s1.drop w.length) then
      some (d, d.length + w.length + 4)
    else none

/-- Match of `(\d+)\s*§` at the head of `s`: the digit group and the matched
    length (the paragraph-marker pattern, preprocess_text.py line 73). -/
def paraAt (s : List Char) : Option (List Char × Nat) :=
  let d := s.takeWhile isDigitC
  if d.isEmpty then none else
    let s1 := s.drop d.length
    let w := s1.takeWhile isWsC
    match s1.drop w.length with
    | '§' :: _ => some (d, d.length + w.length + 1)
    | _ => none

def latestChapterAux : Nat → List Char → Option (List Char) → Option (List Char)
  | 0, _, acc => acc
  | _ + 1, [], acc => acc
  | f + 1, c :: cs, acc =>
    match chapAt (c :: cs) with
    | some (d, k) => latestChapterAux f (List.drop k (c :: cs)) (some d)
    | none => latestChapterAux f cs acc

/-- The `chapter_matches[-1].group(1)` computation of `replace_paragraph`
    (preprocess_text.py lines 60-65): the digits of the last non-overlapping
    match of `(\d+)\s*kap\.` in the text, `none` when there is no match. -/
def latestChapterNum (s : List Char) : Option (List Char) :=
  latestChapterAux s.length s none

/-- The left-to-right non-overlapping scan of Python `re.sub`: `step` either
    matches at the current suffix (returning the replacement text and the
    matched length, always at least 1) or the scan advances one character.
    The fuel argument is always called with the length of the text, which is
    enough because every iteration consumes at least one character. -/
def runSub (step : List Char → Option (List Char × Nat)) : Nat → List Char → List Char
  | 0, s => s
  | _ + 1, [] => []
  | f + 1, c :: cs =>
    match step (c :: cs) with
    | some (repl, k) => repl ++ runSub step f (List.drop k (c :: cs))
    | none => c :: runSub step f cs

/-- Step 1 of `preprocess_legal_text` (lines 49-53): the pattern
    `(\d+)\s*kap\.\s*([^§]*)` with replacement
    `\n\n--- KAPITEL \1 ---\n\1 kap. \2`. -/
def kapMarkerStep (s : List Char) : Option (List Char × Nat) :=
  let d := s.takeWhile isDigitC
  if d.isEmpty then none else
    let s1 := s.drop d.length
    let w1 := s1.takeWhile isWsC
    let s2 := s1.drop w1.length
    if startsWith "kap.".data s2 then
      let s3 := s2.drop 4
      let w2 := s3.takeWhile isWsC
      let s4 := s3.drop w2.length
      let g2 := s4.takeWhile (fun c => c ≠ '§')
      some ("\n\n--- KAPITEL ".data ++ d ++ " ---\n".data ++ d ++ " kap. ".data ++ g2,
            d.length + w1.length + 4 + w2.length + g2.length)
    else none

def preprocessStep1 (s : List Char) : List Char := runSub kapMarkerStep s.length s

/-- The replacement function `replace_paragraph` (lines 57-70): given the
    paragraph digits and the text before the match in the pre-substitution
    string, link the paragraph to the most recently seen chapter there, or
    produce the paragraph-only enhancement when no chapter precedes. -/
def replace_paragraph (para_num : List Char) (text_before : List Char) : List Char :=
  match latestChapterNum text_before with
  | some ch =>
      "\n\n".data ++ para_num ++ " § (i ".data ++ ch ++ " kap.) ".data ++ para_num ++ " §".data
  | none => "\n\n".data ++ para_num ++ " § ".data ++ para_num ++ " §".data

/-- The paragraph-substitution scan of
    step 2 (line 73).  `orig` is the whole pre-substitution string: the
    closure in the source reads `enhanced_content[: match.start()]`, which is
    a prefix of the string being scanned, never of the partially built
    result. -/
def runSub2 (orig : List Char) : Nat → Nat → List Char → List Char
  | 0, _, s => s
  | _ + 1, _, [] => []
  | f + 1, pos, c :: cs =>
    match paraAt (c :: cs) with
    | some (d, k) =>
        replace_paragraph d (orig.take pos) ++ runSub2 orig f (pos + k) (List.drop k (c :: cs))
    | none => c :: runSub2 orig f (pos + 1) cs

def preprocessStep2 (s : List Char) : List Char := runSub2 s s.length 0 s

/-- Step 3 matcher (lines 76-92): pattern `(a\s*kap\.\s*b\s*§)` for the fixed
    digits `a`, `b`, replaced by the VIKTIG PARAGRAF block followed by the
    matched text and the given tail. -/
def viktigAt (a b : Char) (tailTxt : List Char) (s : List Char) : Option (List Char × Nat) :=
  match s with
  | c :: s1 =>
    if c = a then
      let w1 := s1.takeWhile isWsC
      let s2 := s1.drop w1.length
      if startsWith "kap.".data s2 then
        let s3 := s2.drop 4
        let w2 := s3.takeWhile isWsC
        match s3.drop w2.length with
        | c2 :: s5 =>
          if c2 = b then
            let w3 := s5.takeWhile isWsC
            match s5.drop w3.length with
            | '§' :: _ =>
              let k := 1 + w1.length + 4 + w2.length + 1 + w3.length + 1
              some ("\n\n--- VIKTIG PARAGRAF ---\n".data ++ s.take k ++ tailTxt, k)
            | _ => none
          else none
        | [] => none
      else none
    else none
  | [] => none

def preprocessStep3 (s : List Char) : List Char :=
  let t1 := runSub
    (viktigAt '1' '1' " - (Kapitel 1, Paragraf 1) - DEFINITION AV PATENT OCH ENSAMRÄTT\n".data)
    s.length s
  let t2 := runSub
    (viktigAt '2' '1' " - (Kapitel 2, Paragraf 1) - PATENTERBARA UPPFINNINGAR\n".data)
    t1.length t1
  runSub
    (viktigAt '3' '1' " - (Kapitel 3, Paragraf 1) - ENSAMRÄTTENS OMFATTNING\n".data)
    t2.length t2

/-- Matcher for an ordered alternation of literal phrases, replaced by a
    marker followed by the matched phrase (steps 4 and 6). -/
def altStep (alts : List (List Char)) (marker : List Char) (s : List Char) :
    Option (List Char × Nat) :=
  match alts.find? (fun p => startsWith p s) with
  | some p => some (marker ++ p, p.length)
  | none => none

def avsnittPhrases : List (List Char) :=
  ["Det patenterbara området".data, "Patent".data, "Europeiskt patent".data,
   "Patenterbara uppfinningar".data, "Människokroppen".data,
   "Växtsorter och djurraser".data, "Mönsterskydd".data,
   "Ensamrätt till mönster".data, "Skyddstiden".data]

def preprocessStep4 (s : List Char) : List Char :=
  runSub (altStep avsnittPhrases "\n\n--- AVSNITT ---\n".data) s.length s

/-- Scanning variant carrying the previous character, needed for the `\b`
    boundaries of step 5. -/
def runSubBnd (step : Option Char → List Char → Option (List Char × Nat)) :
    Nat → Option Char → List Char → List Char
  | 0, _, s => s
  | _ + 1, _, [] => []
  | f + 1, prev, c :: cs =>
    match step prev (c :: cs) with
    | some (repl, k) =>
      let consumed := (c :: cs).take k
      repl ++ runSubBnd step f consumed.getLast? (List.drop k (c :: cs))
    | none => c :: runSubBnd step f (some c) cs

/-- Step 5 matcher (lines 115-121): `\b(term)\b` with `re.IGNORECASE`,
    replacement `\n\n\1 \1` where the group keeps the original casing. -/
def termStep (term : List Char) (prev : Option Char) (s : List Char) :
    Option (List Char × Nat) :=
  let okL := match prev with | none => true | some p => !isWordC p
  if okL && startsWithCI term s then
    let g := s.take term.length
    let okR := match s.drop term.length with | [] => true | c :: _ => !isWordC c
    if okR then some ("\n\n".data ++ g ++ " ".data ++ g, term.length) else none
  else none

def legal_terms : List (List Char) :=
  ["ensamrätt".data, "uppfinning".data, "patenthavaren".data, "patentskydd".data,
   "patentansökan".data, "mönsterskydd".data, "mönsterhavaren".data,
   "designskydd".data, "bruksmodell".data]

def preprocessStep5 (s : List Char) : List Char :=
  legal_terms.foldl (fun cur t => runSubBnd (termStep t) cur.length none cur) s

def sektionPhrases : List (List Char) :=
  ["Grundläggande bestämmelser".data, "Lagens innehåll".data,
   "Lagens tillämpningsområde".data, "Svenskt patent".data,
   "Registrering av mönster".data, "Skyddsförutsättningar".data]

def preprocessStep6 (s : List Char) : List Char :=
  runSub (altStep sektionPhrases "\n\n--- SEKTION ---\n".data) s.length s

def finditerChapAux : Nat → Nat → List Char → List (List Char × Nat)
  | 0, _, _ => []
  | _ + 1, _, [] => []
  | f + 1, pos, c :: cs =>
    match chapAt (c :: cs) with
    | some (d, k) => (d, pos + k) :: finditerChapAux f (pos + k) (List.drop k (c :: cs))
    | none => finditerChapAux f (pos + 1) cs

/-- All chapter-marker matches as a list of (digit group, match end
    position) pairs, in the manner of `re.finditer`. -/
def finditerChap (s : List Char) : List (List Char × Nat) := finditerChapAux s.length 0 s

def finditerParaAux : Nat → Nat → List Char → List (List Char × Nat)
  | 0, _, _ => []
  | _ + 1, _, [] => []
  | f + 1, pos, c :: cs =>
    match paraAt (c :: cs) with
    | some (d, k) => (d, pos + k) :: finditerParaAux f (pos + k) (List.drop k (c :: cs))
    | none => finditerParaAux f (pos + 1) cs

/-- All paragraph-marker matches as a list of (digit group, match end
    position) pairs, in the manner of `re.finditer`. -/
def finditerPara (s : List Char) : List (List Char × Nat) := finditerParaAux s.length 0 s

def insertAt (s : List Char) (pos : Nat) (ins : List Char) : List Char :=
  s.take pos ++ ins ++ s.drop pos

/-- Step 7 (lines 130-148): for every chapter match in the pre-loop string,
    look 500 characters ahead in the current (already mutated) string for
    paragraph references and insert an explicit chapter-paragraph tag at an
    offset computed from the stale match positions plus ten, skipping
    insertions that would fall past the end of the text. -/
def preprocessStep7 (s : List Char) : List Char :=
  (finditerChap s).foldl (fun cur cm =>
    let ta := (cur.drop cm.2).take 500
    (finditerPara ta).foldl (fun cur2 pm =>
      let tag := "\n[KAPITEL-PARAGRAF-TAGG: Kapitel ".data ++ cm.1 ++
        ", Paragraf ".data ++ pm.1 ++ "]\n".data
      let ip := cm.2 + pm.2 + 10
      if ip < cur2.length then insertAt cur2 ip tag else cur2) cur) s

/-- The boilerplate text of step 8 (lines 168-175); `lawUpper` is the result
    of `law_type.upper()` in the source. -/
def first_para_block (lawUpper pre : List Char) : List Char :=
  "\n--- ".data ++ lawUpper ++ " DEFINITION ---\n".data ++ pre ++
  "(Kapitel 1, Paragraf 1) Den som har skapat ett mönster, eller den till vilken mönstret har övergått, kan genom registrering få ensamrätt till mönstret enligt denna lag (mönsterrätt).\n\nMönsterrätten ger innehavaren ensamrätt att yrkesmässigt utnyttja mönstret enligt denna lag.\n--- ".data ++
  lawUpper ++ " DEFINITION ---\n\n".data

def first_para_patterns : List (List Char × List Char × List Char) :=
  [("Den som har gjort en uppfinning".data, "1 kap. 1 § PATENT: ".data, "PATENT".data),
   ("Den som har skapat ett mönster".data, "1 kap. 1 § MÖNSTERSKYDD: ".data, "MÖNSTERSKYDD".data),
   ("Den som formgivit en produkt".data, "1 kap. 1 § DESIGNSKYDD: ".data, "DESIGNSKYDD".data)]

/-- Step 8 (lines 150-177): prepend the recognized-law boilerplate when the
    trigger pattern is present and the literal boilerplate is not. -/
def preprocessStep8 (s : List Char) : List Char :=
  first_para_patterns.foldl (fun cur pp =>
    if containsSub pp.1 cur then
      let fp := first_para_block pp.2.2 pp.2.1
      if !containsSub fp cur then fp ++ cur else cur
    else cur) s

/-- The whole content transformation of `preprocess_legal_text`
    (preprocess_text.py lines 46-177), with the surrounding file input and
    output stripped away. -/
def preprocess_legal_text (s : List Char) : List Char :=
  preprocessStep8 (preprocessStep7 (preprocessStep6 (preprocessStep5
    (preprocessStep4 (preprocessStep3 (preprocessStep2 (preprocessStep1 s)))))))

/-!
Embedding of `app/vector_store.py`.  The external collaborators (similarity
retrieval and the Gemini generation call) are parameters; a raised exception
in the Python code is an `Except.error` outcome of those calls.
-/

structure Metadata where
  lifetime_info : Bool := false
  patent_info : Bool := false
  has_section : Bool := false
  important : Bool := false
  file_name : Option (List Char) := none
deriving DecidableEq, Repr

structure NodeData where
  text : List Char
  metadata : Metadata
deriving DecidableEq, Repr

structure ScoredNode where
  node : NodeData
  score : Rat
deriving DecidableEq, Repr

def defaultScoredNode : ScoredNode := ⟨⟨[], {}⟩, 0⟩

/-- Search in the manner of `re.search` over a text: does the matcher accept
    some suffix. -/
def existsSuffixB (p : List Char → Bool) : List Char → Bool
  | [] => p []
  | c :: cs => p (c :: cs) || existsSuffixB p cs

def anyAt (ms : List (List Char → Bool)) (t : List Char) : Bool := ms.any (fun m => m t)

/-- Search of an ordered alternation of matchers, as the single regex scan
    the source performs. -/
def reSearchAlt (ms : List (List Char → Bool)) (s : List Char) : Bool :=
  existsSuffixB (anyAt ms) s

/-- Head match of `\d+\s*§` (the `has_section` detector, line 122). -/
def sectionRefAt (s : List Char) : Bool :=
  let d := s.takeWhile isDigitC
  if d.isEmpty then false else
    match (s.drop d.length).dropWhile isWsC with
    | '§' :: _ => true
    | _ => false

/-- Head match of `a\s*kap\.\s*b\s*§` for fixed digits `a`, `b`,
    case-insensitively (the anchor alternatives of the `important` detector,
    lines 127-131). -/
def anchorAtCI (a b : Char) (s : List Char) : Bool :=
  match s with
  | c :: s1 =>
    c = a && (
      let s2 := s1.dropWhile isWsC
      startsWithCI "kap.".data s2 && (
        match (s2.drop 4).dropWhile isWsC with
        | c2 :: s5 => c2 = b && (match s5.dropWhile isWsC with | '§' :: _ => true | _ => false)
        | [] => false))
  | [] => false

/-- The metadata-flagging loop of `VectorStore.create_index`
    (vector_store.py lines 104-133), applied to one chunk. -/
def tag_node_metadata (n : NodeData) : NodeData :=
  let m0 := n.metadata
  let m1 := if reSearchAlt [startsWithCI "år".data, startsWithCI "livstid".data,
      startsWithCI "giltighetstid".data, startsWithCI "skyddstid".data,
      startsWithCI "upprätthållas".data] n.text then { m0 with lifetime_info := true } else m0
  let m2 := if reSearchAlt [startsWith "Patent".data, startsWith "patent".data,
      startsWith "uppfinn".data] n.text then { m1 with patent_info := true } else m1
  let m3 := if reSearchAlt [sectionRefAt] n.text then { m2 with has_section := true } else m2
  let m4 := if reSearchAlt [anchorAtCI '1' '1', startsWithCI "ensamrätt".data,
      startsWithCI "patenterbara".data, anchorAtCI '5' '2'] n.text then
      { m3 with important := true } else m3
  { n with metadata := m4 }

/-- Case-insensitive substring presence, stated independently of the fused
    alternation scan used by the detectors. -/
def containsCI (w s : List Char) : Bool := existsSuffixB (startsWithCI w) s

/-- Case-sensitive substring presence. -/
def containsCS (w s : List Char) : Bool := existsSuffixB (startsWith w) s

/-- Presence of a canonical chapter-paragraph anchor `a kap. b §`. -/
def containsAnchorCI (a b : Char) (s : List Char) : Bool := existsSuffixB (anchorAtCI a b) s

/-- Presence of some `\d+\s*§` section reference. -/
def hasSectionRef (s : List Char) : Bool := existsSuffixB sectionRefAt s

/-- The `section_match` pattern
    `(\d+)\s*(kap\.?|kapitel)\.?\s*(\d+)?\s*(?:§|paragraf)?` with
    `re.IGNORECASE` (lines 166-170), matched at the head of `s`; returns
    groups 1 and 3.  The alternation tries `kap\.?` first and everything
    after it is optional, so a match reduces to the digits, whitespace,
    `kap`, at most two dots greedily, whitespace, and an optional digit
    group. -/
def sectionMatchAt (s : List Char) : Option (List Char × Option (List Char)) :=
  let d := s.takeWhile isDigitC
  if d.isEmpty then none else
    let s1 := (s.drop d.length).dropWhile isWsC
    if startsWithCI "kap".data s1 then
      let s2 := s1.drop 3
      let s3 := match s2 with
        | '.' :: r => (match r with | '.' :: r2 => r2 | _ => r)
        | _ => s2
      let g3 := (s3.dropWhile isWsC).takeWhile isDigitC
      some (d, if g3.isEmpty then none else some g3)
    else none

def findSectionMatch : List Char → Option (List Char × Option (List Char))
  | [] => none
  | c :: cs =>
    match sectionMatchAt (c :: cs) with
    | some r => some r
    | none => findSectionMatch cs

/-- The `paragraf_match` pattern `(\d+)\s*(?:§|paragraf)` with
    `re.IGNORECASE` (lines 171-173), matched at the head of `s`. -/
def paragrafMatchAt (s : List Char) : Option (List Char) :=
  let d := s.takeWhile isDigitC
  if d.isEmpty then none else
    let rest := (s.drop d.length).dropWhile isWsC
    match rest with
    | '§' :: _ => some d
    | _ => if startsWithCI "paragraf".data rest then some d else none

def findParagrafMatch : List Char → Option (List Char)
  | [] => none
  | c :: cs =>
    match paragrafMatchAt (c :: cs) with
    | some d => some d
    | none => findParagrafMatch cs

def kapTail (t : List Char) : Bool :=
  let t2 := t.dropWhile isWsC
  startsWithCI "kapitel".data t2 || startsWithCI "kap".data t2

/-- Head match of `först(?:a)?(?:\s*kapitel|\s*kap\.?)` with `re.IGNORECASE`
    (lines 188-190). -/
def forstaAt (s : List Char) : Bool :=
  startsWithCI "först".data s &&
    (let r := s.drop 5
     kapTail r || (match r with | c :: cs => lowC c = 'a' && kapTail cs | [] => false))

def hasForstaKap (s : List Char) : Bool := existsSuffixB forstaAt s

/-- The query-enhancement block of `VectorStore.query` (lines 164-195). -/
def enhance_query (q : List Char) : List Char :=
  match findSectionMatch q with
  | some (c, some p) => c ++ " kap. ".data ++ p ++ " § ".data ++ q
  | some (c, none) => c ++ " kap. ".data ++ q
  | none =>
    match findParagrafMatch q with
    | some p => if hasForstaKap q then "1 kap. ".data ++ p ++ " § ".data ++ q else q
    | none => q

def lowerL (s : List Char) : List Char := s.map lowC

/-- The lifetime-query test `any(term in query_text.lower() for term in ...)`
    (lines 251-254). -/
def isLifetimeQuery (q : List Char) : Bool :=
  ["livstid".data, "giltighetstid".data, "skyddstid".data, "år".data].any
    (fun t => containsSub t (lowerL q))

/-- The observability-only key-concept scan (lines 197-217). -/
def key_concepts_in (q : List Char) : List (List Char) :=
  ["ensamrätt".data, "patent".data, "uppfinning".data, "patenterbar".data,
   "människokropp".data, "livstid".data, "giltighetstid".data, "skyddstid".data,
   "år".data, "upprätthållas".data].filter (fun t => containsSub t (lowerL q))

/-- Head match of the per-citation node search `c\s*kap\.\s*p\s*§` with the
    digit groups `c`, `p` inserted literally (lines 313-316). -/
def comboAt (c p : List Char) (s : List Char) : Bool :=
  startsWith c s && (
    let s1 := (s.drop c.length).dropWhile isWsC
    startsWith "kap.".data s1 && (
      let s2 := (s1.drop 4).dropWhile isWsC
      startsWith p s2 && (
        match (s2.drop p.length).dropWhile isWsC with
        | '§' :: _ => true
        | _ => false)))

def containsComboB (c p s : List Char) : Bool := existsSuffixB (comboAt c p) s

def grab3Aux : Nat → List Char → List Char → Option (List Char × Nat)
  | i, w, r =>
    let t := w.drop i ++ r
    match t with
    | c :: _ =>
      if c ≠ '\n' then
        let g := t.takeWhile (fun x => x ≠ '\n')
        some (g, i + g.length)
      else match i with | 0 => none | j + 1 => grab3Aux j w r
    | [] => match i with | 0 => none | j + 1 => grab3Aux j w r

/-- The `\s*([^\n]+)` tail of the citation pattern: greedy whitespace,
    backtracking until a non-newline character is available for the
    mandatory group; returns the group and the consumed length. -/
def grab3 (s : List Char) : Option (List Char × Nat) :=
  let w := s.takeWhile isWsC
  grab3Aux w.length w (s.drop w.length)

/-- Whitespace stripping at both ends, as the Python strip method. -/
def stripBoth (s : List Char) : List Char :=
  ((s.dropWhile isWsC).reverse.dropWhile isWsC).reverse

/-- One attempted match of the citation pattern
    `(\d+)\s*kap\.\s*(\d+)\s*§\s*([^\n]+)` (line 304) at the head of `s`;
    returns chapter digits, paragraph digits, the stripped filename group,
    and the matched length. -/
def citationAt (s : List Char) : Option ((List Char × List Char × List Char) × Nat) :=
  let d1 := s.takeWhile isDigitC
  if d1.isEmpty then none else
    let s1 := s.drop d1.length
    let w1 := s1.takeWhile isWsC
    let s2 := s1.drop w1.length
    if startsWith "kap.".data s2 then
      let s3 := s2.drop 4
      let w2 := s3.takeWhile isWsC
      let s4 := s3.drop w2.length
      let d2 := s4.takeWhile isDigitC
      if d2.isEmpty then none else
        let s5 := s4.drop d2.length
        let w3 := s5.takeWhile isWsC
        match s5.drop w3.length with
        | '§' :: s6 =>
          match grab3 s6 with
          | some (g3, used) =>
            some ((d1, d2, stripBoth g3),
                  d1.length + w1.length + 4 + w2.length + d2.length + w3.length + 1 + used)
          | none => none
        | _ => none
    else none

def citationsAux : Nat → List Char → List (List Char × List Char × List Char)
  | 0, _ => []
  | _ + 1, [] => []
  | f + 1, c :: cs =>
    match citationAt (c :: cs) with
    | some (cit, k) => cit :: citationsAux f (List.drop k (c :: cs))
    | none => citationsAux f cs

/-- All citation matches over the generated answer (lines 304-305). -/
def citationsOf (s : List Char) : List (List Char × List Char × List Char) :=
  citationsAux s.length s

def firstIdx {α : Type} (p : α → Bool) : List α → Option Nat
  | [] => none
  | a :: l => if p a then some 0 else (firstIdx p l).map (· + 1)

def setFileName (sn : ScoredNode) (fn : List Char) : ScoredNode :=
  { sn with node := { sn.node with metadata := { sn.node.metadata with file_name := some fn } } }

/-- The citation-extraction loop (lines 302-322): for each citation parsed
    from the answer, find the first retrieved node whose text contains that
    chapter-paragraph combination, overwrite its `file_name` metadata with
    the filename parsed from the answer, and record its index; indices model
    Python appending the shared node object, whose later mutations stay
    visible in the used list. -/
def extract_used_sources (response_text : List Char) (source_nodes : List ScoredNode) :
    List ScoredNode × List Nat :=
  (citationsOf response_text).foldl (fun st cit =>
    match firstIdx (fun sn => containsComboB cit.1 cit.2.1 sn.node.text) st.1 with
    | some j => (st.1.set j (setFileName (st.1.getD j defaultScoredNode) cit.2.2), st.2 ++ [j])
    | none => st) (source_nodes, [])

/-- Lines 302-326 together: the final retrieved-node list and the final
    used-source list, applying the score-threshold fallback
    `[node for node in source_nodes if node.score > 0.5]` when citation
    matching produced nothing and there were retrieved nodes. -/
def finalUsedSources (response_text : List Char) (source_nodes : List ScoredNode) :
    List ScoredNode × List ScoredNode :=
  let st := extract_used_sources response_text source_nodes
  if st.2.isEmpty && !st.1.isEmpty then
    (st.1, st.1.filter (fun sn => decide ((1 : Rat) / 2 < sn.score)))
  else (st.1, st.2.map (fun j => st.1.getD j defaultScoredNode))

def natChars (n : Nat) : List Char := Nat.toDigits 10 n

/-- Banker-rounded hundredths of a rational, the rounding that Python
    two-decimal float formatting applies. -/
def round2 (q : Rat) : Int :=
  let x := q * 100
  let n := ⌊x⌋
  let frac := x - n
  if frac < 1 / 2 then n
  else if 1 / 2 < frac then n + 1
  else if n % 2 = 0 then n else n + 1

/-- Two-decimal rendering of a relevance score as the source formats it. -/
def formatScore2 (q : Rat) : List Char :=
  let r := round2 q
  let a := r.natAbs
  (if r < 0 then "-".data else []) ++ natChars (a / 100) ++ ".".data ++
    (if a % 100 < 10 then "0".data else []) ++ natChars (a % 100)

/-- Head match of `(\d+)\s*kap\.\s*(\d+)\s*§` returning both digit groups
    (the `combined_match` pattern of `get_formatted_sources`, line 354). -/
def comboDigitsAt (s : List Char) : Option (List Char × List Char) :=
  let d1 := s.takeWhile isDigitC
  if d1.isEmpty then none else
    let s1 := (s.drop d1.length).dropWhile isWsC
    if startsWith "kap.".data s1 then
      let s2 := (s1.drop 4).dropWhile isWsC
      let d2 := s2.takeWhile isDigitC
      if d2.isEmpty then none else
        match (s2.drop d2.length).dropWhile isWsC with
        | '§' :: _ => some (d1, d2)
        | _ => none
    else none

def findComboDigits : List Char → Option (List Char × List Char)
  | [] => none
  | c :: cs =>
    match comboDigitsAt (c :: cs) with
    | some r => some r
    | none => findComboDigits cs

def joinNL : List (List Char) → List Char
  | [] => []
  | [x] => x
  | x :: xs => x ++ "\n".data ++ joinNL xs

def formatOneSource (i : Nat) (sn : ScoredNode) : List (List Char) :=
  let file_name := sn.node.metadata.file_name.getD "Okänd källa".data
  let location := match findComboDigits sn.node.text with
    | some (c, p) => " (kapitel ".data ++ c ++ ", § ".data ++ p ++ ")".data
    | none => []
  let excerpt := if 150 < sn.node.text.length then sn.node.text.take 150 ++ "...".data
    else sn.node.text
  ["Källa ".data ++ natChars (i + 1) ++ ": ".data ++ file_name ++ location ++
     " (relevans: ".data ++ formatScore2 sn.score ++ ")".data,
   "    Utdrag: \"".data ++ excerpt ++ "\"".data]

/-- The method get_formatted_sources of EnhancedResponse
    (vector_store.py lines 338-371). -/
def get_formatted_sources (used_sources : List ScoredNode) : List Char :=
  if used_sources.isEmpty then "Inga specifika källor matchade din fråga.".data
  else joinNL ((used_sources.enum.map (fun iv => formatOneSource iv.1 iv.2)).flatten)

def indexUnavailableMsg : List Char :=
  "Sorry, the document index is not available right now.".data

def geminiUnavailableMsg : List Char :=
  "Sorry, the Gemini model is not available. Please check your API key.".data

def sentinelContext : List Char := "No relevant documents found".data

def fallbackSourcesMsg : List Char :=
  "Direkt svar från Gemini utan dokumentkontext på grund av indexeringsfel. Använder BGE inbäddningsmodell (BAAI/bge-small-en-v1.5).".data

def errorResponsePre : List Char := "Error processing query: ".data

/-- The retrieval-augmented prompt template (vector_store.py lines 279-296),
    with the indentation the Python f-string keeps. -/
def mainPrompt (context_str query_text : List Char) : List Char :=
  "Du är en juridisk assistent som svarar på frågor om svensk lagstiftning inom immaterialsrättlagstiftning, inklusive upphovsrätt, patenträtt, varumärkesrätt och mönsterskydd.\n            Du ska svara **på svenska**. Använd endast informationen i den tillhandahållna lagtexten nedan. Om du inte hittar ett direkt svar, säg det tydligt och visa den mest relevanta informationen ändå.\n            \n            ### Viktigt:\n            - Ange alltid exakt kapitel och paragraf när du hänvisar till lagtext (t.ex. \"Enligt 1 kap. 2 §...\")\n            - Dubbelkolla NOGA att kapitel och paragraf hör ihop - kontrollera att du inte blandar paragrafnummer från ett kapitel med fel kapitelnummer\n            - Om du citerar lagtext, markera tydligt början och slutet på citatet\n            - Hänvisa alltid till ursprungskällan och var helt transparent med var informationen kommer ifrån\n            - Om paragrafnummer och kapitelnummer förekommer separat i olika delar av texten, säkerställ att du kombinerar dem korrekt\n            - Efter ditt svar, lista EXAKT vilka källor du använde för att generera svaret, i formatet \"Använda källor: [kapitel och paragraf] [filnamn]\"\n            \n            ### Lagtext:\n            ".data ++
  context_str ++
  "\n\n            ### Fråga:\n            ".data ++
  query_text ++
  "\n\n            Besvara frågan med direkt stöd i texten, utan egna antaganden. Du ska svara **på svenska**. Ange alltid kapitel- och paragrafnummer när det är relevant. Dubbelkolla att du inte anger fel kapitelnummer för en paragraf.".data

/-- The context-free fallback prompt (vector_store.py lines 382-388); by the
    time the except-branch runs, `query_text` already holds the enhanced
    query. -/
def directPrompt (query_text : List Char) : List Char :=
  "Du är en juridisk assistent som svarar på frågor om svensk immaterialsrättlagstiftning, inklusive upphovsrätt, patenträtt, varumärkesrätt och mönsterskydd.\n                    \n                    Du ska svara **på svenska** och ange kapitel och paragraf när det är möjligt. \n                    \n                    Fråga: ".data ++
  query_text ++
  "\n                    \n                    Var tydlig om du inte har tillräcklig information för att svara på frågan.".data

def joinBlank : List (List Char) → List Char
  | [] => []
  | [x] => x
  | x :: xs => x ++ "\n\n".data ++ joinBlank xs

/-- Result shapes of `VectorStore.query`: a bare string (unavailable index,
    unavailable model, final degraded error), the `EnhancedResponse` object,
    or the `FallbackResponse` object. -/
inductive QueryResult where
  | plain (text : List Char)
  | enhanced (text : List Char) (source_nodes used_sources : List ScoredNode)
  | fallbackAnswer (text : List Char)
deriving DecidableEq

/-- The string form of a query result, as Python str builds it. -/
def QueryResult.toText : QueryResult → List Char
  | .plain t => t
  | .enhanced t _ _ => t
  | .fallbackAnswer t => t

/-- The `get_formatted_sources` attribute, absent on bare strings. -/
def QueryResult.formattedSources : QueryResult → Option (List Char)
  | .plain _ => none
  | .enhanced _ _ used => some (get_formatted_sources used)
  | .fallbackAnswer _ => some fallbackSourcesMsg

def QueryResult.isFallbackResponse : QueryResult → Bool
  | .fallbackAnswer _ => true
  | _ => false

/-- The body of the `try` block of `VectorStore.query` (lines 163-373);
    exceptions arise from the retrieval and generation calls. -/
def queryTry (modelConfigured : Bool)
    (retrieve : List Char → Except (List Char) (List ScoredNode))
    (generate : List Char → Except (List Char) (List Char))
    (query_text : List Char) : Except (List Char) QueryResult := do
  let qt := enhance_query query_text
  let _key_concepts := key_concepts_in qt
  let nodes ← retrieve qt
  let ctxNodes :=
    if nodes.isEmpty then ([sentinelContext], ([] : List ScoredNode))
    else if isLifetimeQuery qt then
      let part := nodes.partition (fun n => n.node.metadata.lifetime_info)
      ((part.1 ++ part.2).map (fun n => n.node.text), part.1 ++ part.2)
    else (nodes.map (fun n => n.node.text), nodes)
  let context_str := joinBlank ctxNodes.1
  if modelConfigured = false then
    return .plain geminiUnavailableMsg
  let response_text ← generate (mainPrompt context_str qt)
  let fin := finalUsedSources response_text ctxNodes.2
  return .enhanced response_text fin.1 fin.2

/-- The method query of VectorStore (vector_store.py lines 157-405).  `indexLoaded`
    models the truthiness of `self.index`, `modelConfigured` of
    `self.model`; the except-branch runs the context-free fallback when a
    model is configured and otherwise (or when the fallback call fails too)
    returns the degraded error string. -/
def VectorStore.query (indexLoaded modelConfigured : Bool)
    (retrieve : List Char → Except (List Char) (List ScoredNode))
    (generate : List Char → Except (List Char) (List Char))
    (query_text : List Char) : QueryResult :=
  if indexLoaded = false then .plain indexUnavailableMsg
  else
    match queryTry modelConfigured retrieve generate query_text with
    | .ok r => r
    | .error e =>
      if modelConfigured then
        match generate (directPrompt (enhance_query query_text)) with
        | .ok t => .fallbackAnswer t
        | .error _ => .plain (errorResponsePre ++ e)
      else .plain (errorResponsePre ++ e)

/-!
Embedding of `app/chatbot.py`.
-/

structure ChatMessage where
  role : List Char
  content : List Char
deriving DecidableEq

/-- The Gemini-format message list built from the trailing five history turns
    (chatbot.py lines 100-118).  It is constructed and then never attached:
    the chat is started with an empty history and only the context-plus-query
    prompt is sent. -/
def buildGeminiMessages (conversation_history : List ChatMessage) :
    List (List Char × List Char) :=
  (conversation_history.drop (conversation_history.length - 5)).foldl (fun acc m =>
    if m.role = "user".data then acc ++ [("user".data, m.content)]
    else if m.role = "assistant".data then acc ++ [("model".data, m.content)]
    else acc) []

/-- The dictionary `Chatbot.get_response` returns: the success shape carries
    `answer`, `sources`, `response_time`; the error shape carries `answer`,
    `error`, `response_time`. -/
structure ChatResult where
  answer : List Char
  sources : Option (List Char)
  error : Option (List Char)
  response_time : Rat
deriving DecidableEq

def chatErrorAnswer : List Char :=
  "I".data ++ [Char.ofNat 39] ++ "m sorry, I encountered an error processing your request.".data

/-- The method get_response of Chatbot (chatbot.py lines 81-153).  The vector-store call
    and the Gemini `send_message` call are parameters; wall-clock elapsed
    time is the parameter `elapsed`.  Every failure, including a missing API
    key, is caught by the surrounding `except` and turned into the degraded
    error dictionary. -/
def Chatbot.get_response (apiKeyConfigured : Bool)
    (vquery : List Char → Except (List Char) QueryResult)
    (send : List Char → Except (List Char) (List Char))
    (elapsed : Rat) (query : List Char)
    (conversation_history : List ChatMessage) : ChatResult :=
  let body : Except (List Char) ChatResult := do
    if apiKeyConfigured = false then
      throw "Gemini API key not found in environment variables".data
    let rag ← vquery query
    let context_str := rag.toText
    let _gemini_messages := buildGeminiMessages conversation_history
    let prompt := "Context: ".data ++ context_str ++ "\n\nQuestion: ".data ++ query
    let answer ← send prompt
    pure { answer := answer,
           sources := some (rag.formattedSources.getD []),
           error := none,
           response_time := elapsed }
  match body with
  | .ok r => r
  | .error e =>
      { answer := chatErrorAnswer, sources := none, error := some e, response_time := elapsed }

/-!
Concrete documents used to evaluate the Structural Tagger.
-/

/-- A document whose only paragraph marker, `3 §`, has `2 kap.` as the nearest
    preceding chapter marker, while `1 kap.` also precedes it within the 500
    characters step 7 looks ahead. -/
def localityInput : List Char :=
  "1 kap. Alfa och beta 2 kap. Gamma och delta 3 § Detta stycke handlar om tredje paragrafen i andra kapitlet.".data

/-- A document consisting of the recognized trigger phrase of the
    mönsterskydd law type. -/
def boilerplateInput : List Char := "Den som har skapat ett mönster".data

/-- The boilerplate block step 8 prepends for the mönsterskydd law type. -/
def monsterBoilerplate : List Char :=
  first_para_block "MÖNSTERSKYDD".data "1 kap. 1 § MÖNSTERSKYDD: ".data

/-- A phrase occurring exactly once per prepended boilerplate block and
    nowhere else in the documents under study. -/
def boilerplateMarker : List Char := "(Kapitel 1, Paragraf 1) Den som har skapat".data

/-!
Helper lemmas shared by the claim theorems.
-/

theorem existsSuffixB_or (p q : List Char → Bool) (s : List Char) :
    existsSuffixB (fun t => p t || q t) s = (existsSuffixB p s || existsSuffixB q s) := by
  induction s with
  | nil => rfl
  | cons c cs ih =>
    simp only [existsSuffixB, ih]
    cases p (c :: cs) <;> cases q (c :: cs) <;>
      cases existsSuffixB p cs <;> cases existsSuffixB q cs <;> rfl

theorem existsSuffixB_false (s : List Char) :
    existsSuffixB (fun _ => false) s = false := by
  induction s with
  | nil => rfl
  | cons c cs ih => simpa [existsSuffixB] using ih

theorem reSearchAlt_cons (m : List Char → Bool) (ms : List (List Char → Bool)) (s : List Char) :
    reSearchAlt (m :: ms) s = (existsSuffixB m s || reSearchAlt ms s) := by
  unfold reSearchAlt
  have h : anyAt (m :: ms) = fun t => m t || anyAt ms t := by
    funext t; simp [anyAt]
  rw [h, existsSuffixB_or]

theorem reSearchAlt_nil (s : List Char) : reSearchAlt [] s = false := by
  unfold reSearchAlt
  have h : anyAt ([] : List (List Char → Bool)) = fun _ => false := by
    funext t; simp [anyAt]
  rw [h, existsSuffixB_false]

theorem extract_used_sources_nil (resp : List Char) :
    extract_used_sources resp [] = ([], []) := by
  unfold extract_used_sources
  generalize citationsOf resp = cits
  induction cits with
  | nil => rfl
  | cons c l ih => simpa [List.foldl, firstIdx] using ih

theorem finalUsedSources_nil (t : List Char) : finalUsedSources t [] = ([], []) := by
  unfold finalUsedSources
  rw [extract_used_sources_nil]
  rfl

/-!
Claim theorems.
-/

set_option maxRecDepth 4000 in
/-- Claim C1.  The claim states that every chapter-paragraph tag the
    Structural Tagger writes carries the chapter number of the nearest
    chapter marker preceding the paragraph marker in the original text.  The
    code violates this: on `localityInput` the only paragraph marker `3 §`
    has nearest preceding chapter `2` in the original (conjuncts one and
    two), yet the tagged output contains an explicit chapter-paragraph tag
    pairing paragraph 3 with chapter 1, produced by the step-7 loop whose
    500-character lookahead crosses the intervening `2 kap.` marker. -/
theorem chapter_locality_broken_by_step7 :
    finditerPara localityInput = [("3".data, 47)] ∧
    latestChapterNum (localityInput.take 44) = some "2".data ∧
    containsSub "TAGG: Kapitel 1, Paragraf 3".data (preprocess_legal_text localityInput) = true := by
  decide

/-- Claim C2.  For every query, history and outcome of the external calls,
    the chat wrapper returns a result carrying the supplied elapsed time;
    whenever the error field is set the answer is the fixed degraded
    human-readable message, and otherwise the answer is exactly a successful
    output of the send call.  No outcome escapes as an exception: the
    function is total over all modelled external outcomes. -/
theorem get_response_total (apiKeyConfigured : Bool)
    (vquery : List Char → Except (List Char) QueryResult)
    (send : List Char → Except (List Char) (List Char))
    (elapsed : Rat) (q : List Char) (hist : List ChatMessage) :
    (Chatbot.get_response apiKeyConfigured vquery send elapsed q hist).response_time = elapsed ∧
    ((Chatbot.get_response apiKeyConfigured vquery send elapsed q hist).error.isSome →
      (Chatbot.get_response apiKeyConfigured vquery send elapsed q hist).answer =
        chatErrorAnswer) ∧
    ((Chatbot.get_response apiKeyConfigured vquery send elapsed q hist).error = none →
      ∃ p t, send p = Except.ok t ∧
        (Chatbot.get_response apiKeyConfigured vquery send elapsed q hist).answer = t) := by
  cases apiKeyConfigured with
  | false =>
    have hres : Chatbot.get_response false vquery send elapsed q hist =
        { answer := chatErrorAnswer, sources := none,
          error := some "Gemini API key not found in environment variables".data,
          response_time := elapsed } := rfl
    rw [hres]
    exact ⟨rfl, fun _ => rfl, fun h => absurd h (by simp)⟩
  | true =>
    cases hv : vquery q with
    | error e =>
      have hres : Chatbot.get_response true vquery send elapsed q hist =
          { answer := chatErrorAnswer, sources := none, error := some e,
            response_time := elapsed } := by
        simp only [Chatbot.get_response]
        rw [hv]
        rfl
      rw [hres]
      exact ⟨rfl, fun _ => rfl, fun h => absurd h (by simp)⟩
    | ok r =>
      cases hs : send ("Context: ".data ++ r.toText ++ "\n\nQuestion: ".data ++ q) with
      | error e =>
        have hres : Chatbot.get_response true vquery send elapsed q hist =
            { answer := chatErrorAnswer, sources := none, error := some e,
              response_time := elapsed } := by
          simp only [Chatbot.get_response]
          rw [hv]
          simp only [Except.bind, bind]
          rw [hs]
          rfl
        rw [hres]
        exact ⟨rfl, fun _ => rfl, fun h => absurd h (by simp)⟩
      | ok t =>
        have hres : Chatbot.get_response true vquery send elapsed q hist =
            { answer := t, sources := some (r.formattedSources.getD []), error := none,
              response_time := elapsed } := by
          simp only [Chatbot.get_response]
          rw [hv]
          simp only [Except.bind, bind]
          rw [hs]
          rfl
        rw [hres]
        exact ⟨rfl, fun h => absurd h (by simp), fun _ =>
          ⟨"Context: ".data ++ r.toText ++ "\n\nQuestion: ".data ++ q, t, hs, rfl⟩⟩

/-- Witness for claim C2 at a concrete input: with no API key configured the
    degraded answer is returned. -/
theorem get_response_total_check :
    (Chatbot.get_response false (fun _ => Except.ok (QueryResult.plain []))
      (fun _ => Except.ok "ok".data) 1 "hej".data []).answer = chatErrorAnswer :=
  (get_response_total false (fun _ => Except.ok (QueryResult.plain []))
    (fun _ => Except.ok "ok".data) 1 "hej".data []).2.1 (by decide)

set_option maxRecDepth 8000 in
/-- Claim C3.  The claim states that applying the tagging function to its own
    output prepends the recognized-law boilerplate at most once.  The code
    violates this: one application of the tagger to `boilerplateInput`
    prepends the boilerplate once (conjuncts one and two), and a second
    application prepends a fresh copy again (conjuncts three and four: the
    output of the double application starts with the pristine block and
    contains the marker phrase twice), because steps 1 through 7 of the
    second run rewrite the previously prepended block before step 8 performs
    its literal containment test. -/
theorem boilerplate_double_prepend :
    preprocess_legal_text boilerplateInput = monsterBoilerplate ++ boilerplateInput ∧
    countOcc boilerplateMarker (preprocess_legal_text boilerplateInput) = 1 ∧
    startsWith monsterBoilerplate
      (preprocess_legal_text (preprocess_legal_text boilerplateInput)) = true ∧
    countOcc boilerplateMarker
      (preprocess_legal_text (preprocess_legal_text boilerplateInput)) = 2 := by
  decide

/-- Claim C4.  The query rewriter maps the first spec input to the canonical
    chapter-paragraph token prefixed to the question, maps the
    ordinal-first-chapter input to a query prefixed with the canonical first
    chapter token, and leaves every query matching neither the
    chapter pattern nor the paragraph-plus-first-chapter combination
    unmodified. -/
theorem query_rewrite_correct :
    enhance_query "vad säger 2 kap. 3 §".data = "2 kap. 3 § vad säger 2 kap. 3 §".data ∧
    enhance_query "vad säger första kapitlets 4 §".data =
      "1 kap. 4 § vad säger första kapitlets 4 §".data ∧
    ∀ q : List Char, findSectionMatch q = none →
      (findParagrafMatch q = none ∨ hasForstaKap q = false) → enhance_query q = q := by
  refine ⟨by decide, by decide, ?_⟩
  intro q h1 h2
  unfold enhance_query
  rw [h1]
  cases hp : findParagrafMatch q with
  | none => rfl
  | some p =>
    rcases h2 with h2 | h2
    · rw [hp] at h2; exact absurd h2 (by simp)
    · simp [h2]

/-- Witness for claim C4: a pattern-free query is returned unmodified. -/
theorem query_rewrite_correct_check : enhance_query "hej".data = "hej".data :=
  query_rewrite_correct.2.2 _ (by decide) (Or.inl (by decide))

/-- Claim C5.  Given the synthesized answer containing the citation
    `2 kap. 5 § lawfile.txt` and any retrieved chunk whose text contains the
    combination `2 kap. 5 §`, the used-source list is exactly that chunk with
    its file_name metadata overwritten by the filename parsed from the
    answer. -/
theorem source_attribution_round_trip (text : List Char) (m : Metadata) (sc : Rat)
    (h : containsComboB "2".data "5".data text = true) :
    (finalUsedSources "Använda källor: 2 kap. 5 § lawfile.txt".data [⟨⟨text, m⟩, sc⟩]).2 =
      [⟨⟨text, { m with file_name := some "lawfile.txt".data }⟩, sc⟩] := by
  have hc : citationsOf "Använda källor: 2 kap. 5 § lawfile.txt".data =
      [("2".data, "5".data, "lawfile.txt".data)] := by decide
  have hidx : firstIdx (fun sn => containsComboB "2".data "5".data sn.node.text)
      [(⟨⟨text, m⟩, sc⟩ : ScoredNode)] = some 0 := by
    simp [firstIdx, h]
  have hext : extract_used_sources "Använda källor: 2 kap. 5 § lawfile.txt".data
      [⟨⟨text, m⟩, sc⟩] =
      ([⟨⟨text, { m with file_name := some "lawfile.txt".data }⟩, sc⟩], [0]) := by
    unfold extract_used_sources
    rw [hc]
    simp only [List.foldl]
    rw [hidx]
    rfl
  unfold finalUsedSources
  rw [hext]
  rfl

/-- Witness for claim C5 at a concrete chunk text. -/
theorem source_attribution_round_trip_check :
    (finalUsedSources "Använda källor: 2 kap. 5 § lawfile.txt".data
      [⟨⟨"Detta är 2 kap. 5 § i lagen".data, {}⟩, (9 : Rat) / 10⟩]).2 =
      [⟨⟨"Detta är 2 kap. 5 § i lagen".data,
        { file_name := some "lawfile.txt".data }⟩, (9 : Rat) / 10⟩] :=
  source_attribution_round_trip "Detta är 2 kap. 5 § i lagen".data {} ((9 : Rat) / 10)
    (by decide)

/-- Claim C6.  When retrieval succeeds with an empty hit list, the query
    pipeline substitutes the sentinel context (visible in the prompt the
    generation call receives), returns the enhanced result with empty source
    and used-source lists, and the answer text is non-empty whenever the
    generated text is; every other outcome of the modelled external calls
    also returns a value, so nothing is raised. -/
theorem empty_retrieval_safe
    (retrieve : List Char → Except (List Char) (List ScoredNode))
    (generate : List Char → Except (List Char) (List Char)) (q t : List Char)
    (hr : retrieve (enhance_query q) = Except.ok [])
    (hg : generate (mainPrompt sentinelContext (enhance_query q)) = Except.ok t)
    (ht : t ≠ []) :
    VectorStore.query true true retrieve generate q = QueryResult.enhanced t [] [] ∧
    (VectorStore.query true true retrieve generate q).toText ≠ [] := by
  have hb : queryTry true retrieve generate q = Except.ok (QueryResult.enhanced t [] []) := by
    simp only [queryTry]
    rw [hr]
    simp only [Except.bind, bind]
    simp only [List.isEmpty, if_true, joinBlank]
    rw [hg]
    simp [finalUsedSources_nil]
    rfl
  have hq : VectorStore.query true true retrieve generate q = QueryResult.enhanced t [] [] := by
    unfold VectorStore.query
    rw [if_neg (by simp), hb]
  exact ⟨hq, by rw [hq]; exact ht⟩

/-- Witness for claim C6 at concrete external outcomes. -/
theorem empty_retrieval_safe_check :
    VectorStore.query true true (fun _ => Except.ok []) (fun _ => Except.ok "Svar".data)
      "testfråga".data = QueryResult.enhanced "Svar".data [] [] :=
  (empty_retrieval_safe (fun _ => Except.ok []) (fun _ => Except.ok "Svar".data)
    "testfråga".data "Svar".data rfl rfl (by decide)).1

/-- Claim C7.  When citation parsing over the synthesized answer yields no
    matches, the used-source list equals exactly the retrieved hits whose
    relevance score is strictly greater than one half, in retrieved order;
    and when that list is empty the formatted-sources output is the fixed
    no-match message. -/
theorem citation_fallback_threshold (resp : List Char) (nodes : List ScoredNode)
    (h : citationsOf resp = []) :
    (finalUsedSources resp nodes).2 =
      nodes.filter (fun sn => decide ((1 : Rat) / 2 < sn.score)) ∧
    (nodes.filter (fun sn => decide ((1 : Rat) / 2 < sn.score)) = [] →
      get_formatted_sources (finalUsedSources resp nodes).2 =
        "Inga specifika källor matchade din fråga.".data) := by
  have hx : extract_used_sources resp nodes = (nodes, []) := by
    unfold extract_used_sources
    rw [h]
    rfl
  have h1 : (finalUsedSources resp nodes).2 =
      nodes.filter (fun sn => decide ((1 : Rat) / 2 < sn.score)) := by
    unfold finalUsedSources
    rw [hx]
    cases nodes with
    | nil => rfl
    | cons a l => rfl
  refine ⟨h1, fun hf => ?_⟩
  rw [h1, hf]
  rfl

/-- Witness for claim C7: a citation-free answer with one hit above and one
    below the threshold keeps exactly the hit above it. -/
theorem citation_fallback_threshold_check :
    (finalUsedSources "Hej".data
      [⟨⟨"a 2 kap.".data, {}⟩, (3 : Rat) / 4⟩, ⟨⟨"b".data, {}⟩, (1 : Rat) / 4⟩]).2 =
      [⟨⟨"a 2 kap.".data, {}⟩, (3 : Rat) / 4⟩] := by
  rw [(citation_fallback_threshold "Hej".data _ (by decide)).1]
  simp only [List.filter_cons, List.filter_nil]
  norm_num

/-- Counterexample for claim C8.  With no index loaded and a model
    configured, the query operation returns the fixed unavailable message
    and not a fallback response, contradicting the claim that a configured
    model triggers the context-free Fallback Path in this situation. -/
theorem no_index_counterexample :
    VectorStore.query false true (fun _ => Except.ok []) (fun _ => Except.ok "Svar".data)
      "fråga".data = QueryResult.plain indexUnavailableMsg ∧
    (VectorStore.query false true (fun _ => Except.ok []) (fun _ => Except.ok "Svar".data)
      "fråga".data).isFallbackResponse = false :=
  ⟨rfl, rfl⟩

/-- Claim C8 as amended.  When no index is loaded, the query operation
    returns the fixed unavailable message regardless of model configuration
    and without consulting the generation call; the context-free Fallback
    Path with its answer is reached when an index is loaded, a model is
    configured and the pipeline fails mid-way; in neither case does an
    unhandled fault escape. -/
theorem no_index_behavior (m : Bool)
    (retrieve : List Char → Except (List Char) (List ScoredNode))
    (generate : List Char → Except (List Char) (List Char)) (q : List Char) :
    VectorStore.query false m retrieve generate q = QueryResult.plain indexUnavailableMsg ∧
    (∀ e t, retrieve (enhance_query q) = Except.error e →
      generate (directPrompt (enhance_query q)) = Except.ok t →
      VectorStore.query true true retrieve generate q = QueryResult.fallbackAnswer t) := by
  constructor
  · rfl
  · intro e t hr hg
    have hb : queryTry true retrieve generate q = Except.error e := by
      simp only [queryTry]
      rw [hr]
      rfl
    unfold VectorStore.query
    rw [if_neg (by simp), hb, hg]
    rfl

/-- Witness for claim C8 at concrete external outcomes. -/
theorem no_index_behavior_check :
    VectorStore.query false true (fun _ => Except.error "fel".data)
      (fun _ => Except.ok "svar".data) "x".data = QueryResult.plain indexUnavailableMsg ∧
    VectorStore.query true true (fun _ => Except.error "fel".data)
      (fun _ => Except.ok "svar".data) "x".data = QueryResult.fallbackAnswer "svar".data :=
  ⟨(no_index_behavior true _ _ _).1, (no_index_behavior true _ _ _).2 _ _ rfl rfl⟩

/-- Counterexample for claim C9.  A chunk whose text is only the keyword
    `ensamrätt` gets the important flag although its text contains no
    canonical chapter-paragraph anchor, indeed no section reference at all,
    contradicting the claim that the flag is set exactly on texts containing
    one of the curated chapter-paragraph anchors. -/
theorem important_flag_counterexample :
    (tag_node_metadata ⟨"Lagen ger ensamrätt.".data, {}⟩).metadata.important = true ∧
    containsAnchorCI '1' '1' "Lagen ger ensamrätt.".data = false ∧
    containsAnchorCI '5' '2' "Lagen ger ensamrätt.".data = false ∧
    hasSectionRef "Lagen ger ensamrätt.".data = false := by
  decide

/-- Claim C9 as amended.  The important flag is set exactly when the chunk
    text contains the anchor `1 kap. 1 §`, the keyword `ensamrätt`, the
    keyword `patenterbara`, or the anchor `5 kap. 2 §`, case-insensitively;
    and the lifetime, patent and section flags are each set exactly when
    their fixed pattern detectors match the chunk text. -/
theorem metadata_flags_exact (text : List Char) (fn : Option (List Char)) :
    ((tag_node_metadata ⟨text, { file_name := fn }⟩).metadata.important =
      (containsAnchorCI '1' '1' text || containsCI "ensamrätt".data text ||
       containsCI "patenterbara".data text || containsAnchorCI '5' '2' text)) ∧
    ((tag_node_metadata ⟨text, { file_name := fn }⟩).metadata.lifetime_info =
      (containsCI "år".data text || containsCI "livstid".data text ||
       containsCI "giltighetstid".data text || containsCI "skyddstid".data text ||
       containsCI "upprätthållas".data text)) ∧
    ((tag_node_metadata ⟨text, { file_name := fn }⟩).metadata.patent_info =
      (containsCS "Patent".data text || containsCS "patent".data text ||
       containsCS "uppfinn".data text)) ∧
    ((tag_node_metadata ⟨text, { file_name := fn }⟩).metadata.has_section =
      hasSectionRef text) := by
  have e1 : reSearchAlt [startsWithCI "år".data, startsWithCI "livstid".data,
      startsWithCI "giltighetstid".data, startsWithCI "skyddstid".data,
      startsWithCI "upprätthållas".data] text =
      (containsCI "år".data text || containsCI "livstid".data text ||
       containsCI "giltighetstid".data text || containsCI "skyddstid".data text ||
       containsCI "upprätthållas".data text) := by
    rw [reSearchAlt_cons, reSearchAlt_cons, reSearchAlt_cons, reSearchAlt_cons,
      reSearchAlt_cons, reSearchAlt_nil]
    simp [containsCI, Bool.or_assoc]
  have e2 : reSearchAlt [startsWith "Patent".data, startsWith "patent".data,
      startsWith "uppfinn".data] text =
      (containsCS "Patent".data text || containsCS "patent".data text ||
       containsCS "uppfinn".data text) := by
    rw [reSearchAlt_cons, reSearchAlt_cons, reSearchAlt_cons, reSearchAlt_nil]
    simp [containsCS, Bool.or_assoc]
  have e3 : reSearchAlt [sectionRefAt] text = hasSectionRef text := by
    rw [reSearchAlt_cons, reSearchAlt_nil]
    simp [hasSectionRef]
  have e4 : reSearchAlt [anchorAtCI '1' '1', startsWithCI "ensamrätt".data,
      startsWithCI "patenterbara".data, anchorAtCI '5' '2'] text =
      (containsAnchorCI '1' '1' text || containsCI "ensamrätt".data text ||
       containsCI "patenterbara".data text || containsAnchorCI '5' '2' text) := by
    rw [reSearchAlt_cons, reSearchAlt_cons, reSearchAlt_cons, reSearchAlt_cons, reSearchAlt_nil]
    simp [containsAnchorCI, containsCI, Bool.or_assoc]
  simp only [tag_node_metadata, e1, e2, e3, e4]
  refine ⟨?_, ?_, ?_, ?_⟩ <;>
    cases h1 : (containsCI "år".data text || containsCI "livstid".data text ||
      containsCI "giltighetstid".data text || containsCI "skyddstid".data text ||
      containsCI "upprätthållas".data text) <;>
    cases h2 : (containsCS "Patent".data text || containsCS "patent".data text ||
      containsCS "uppfinn".data text) <;>
    cases h3 : hasSectionRef text <;>
    cases h4 : (containsAnchorCI '1' '1' text || containsCI "ensamrätt".data text ||
      containsCI "patenterbara".data text || containsAnchorCI '5' '2' text) <;>
    simp [h1, h2, h3, h4]

/-- Claim C10.  For a fixed question and fixed outcomes of the external
    calls, the result of the chat wrapper is identical for any two
    conversation histories: the message list built from the trailing five
    history turns is never attached to the chat, so neither the prompt sent
    nor the returned result depends on the history. -/
theorem history_independent_prompt (apiKeyConfigured : Bool)
    (vquery : List Char → Except (List Char) QueryResult)
    (send : List Char → Except (List Char) (List Char))
    (elapsed : Rat) (q : List Char) (h1 h2 : List ChatMessage) :
    Chatbot.get_response apiKeyConfigured vquery send elapsed q h1 =
      Chatbot.get_response apiKeyConfigured vquery send elapsed q h2 := rfl
